import Mathlib

/-!
Verification development for the CuraEngine plugin extension-point layer
(src/include/plugins/slotproxy.h) and the progress reporter
(src/src/progress/Progress.cpp), as a shallow embedding in Lean 4.

The repository ships slotproxy.h in full but not pluginproxy.h,
converters.h or validator.h; definitions for those are modelled from the
specification and say so in their doc comments.  C++ doubles are
embedded as rationals: the claims treated here use them only through
record updates and order comparisons.
-/

namespace CuraPlugins

/-- A communication channel to one plugin process (grpc::Channel handle).
Only its identity matters to the embedding; the validator and the
transport are functions over it. -/
structure Channel where
  id : Nat
deriving DecidableEq, Repr

/-- Typed RPC errors surfaced by the Remote Call Client on call-time
transport failure (channel closed, timeout, malformed wire message),
per spec section 4.2 and 7(b). -/
inductive RpcError where
  | channelClosed : RpcError
  | timeout : RpcError
  | malformedResponse : RpcError
deriving DecidableEq, Repr

/-- The per-slot fixed data the SlotProxy template is instantiated with:
the Capability Validator, the request/response Value Converters and the
Default Behavior callable.  `validate`, `toWire` and `fromWire` stand for
the Validator / converter template parameters whose headers
(validator.h, converters.h) are not under src/; their shapes are taken
from the spec contracts in sections 4.3 and 4.4.  `defaultB` is the
`auto Default` template parameter of slotproxy.h line 37. -/
structure SlotEnv (Args Req Resp Res : Type) where
  validate : Channel → Bool
  toWire : Args → Req
  fromWire : Resp → Res
  defaultB : Args → Res

/-- Modelled from the spec: the Remote Call Client ("PluginProxy",
pluginproxy.h is not under src/).  It owns one channel and caches the
bind-time Validation Outcome for the lifetime of the binding
(spec section 3, "Validation Outcome ... computed once per Channel
Binding and cached for its lifetime"). -/
structure PluginProxy where
  channel : Channel
  valid : Bool
deriving DecidableEq, Repr

/-- Modelled from the spec: Remote Call Client construction
(spec section 4.2): "Construction validates the channel via the
Capability Validator before the client is considered usable;
construction fails (client not created, binding rejected) if validation
is negative."  Returns `none` exactly when the binding is rejected. -/
def PluginProxy.create {Args Req Resp Res : Type} (env : SlotEnv Args Req Resp Res)
    (channel : Channel) : Option PluginProxy :=
  if env.validate channel then some { channel := channel, valid := env.validate channel }
  else none

/-- Modelled from the spec: one call through the Remote Call Client
(spec section 4.2 convert / call / convert, with the call-time failure
policy of sections 4.1 and 7(b): "degrade to Default Behavior for that
call").  `remote` is the transport's reply function for this single
invocation: the environment decides, per call, how the channel answers
the wire request. -/
def PluginProxy.call {Args Req Resp Res : Type} (env : SlotEnv Args Req Resp Res)
    (_p : PluginProxy) (remote : Req → Except RpcError Resp) (args : Args) : Res :=
  match remote (env.toWire args) with
  | Except.ok resp => env.fromWire resp
  | Except.error _ => env.defaultB args

/-- The Slot Front-End state: slotproxy.h line 40,
`std::optional<PluginProxy<...>> plugin_{ std::nullopt }`. -/
structure SlotProxy where
  plugin_ : Option PluginProxy
deriving DecidableEq, Repr

/-- slotproxy.h line 50: the default constructor leaves `plugin_`
at its initializer `std::nullopt`. -/
def SlotProxy.mkDefault : SlotProxy := { plugin_ := none }

/-- slotproxy.h line 59: constructing a SlotProxy from a channel
initializes `plugin_` from the channel, which runs the (spec-modelled)
PluginProxy construction; per spec section 7(a) a rejected validation
leaves the slot "on its previous binding (or Default Behavior if none
existed)", so a bind attempt on an existing proxy state keeps the prior
state when construction fails. -/
def SlotProxy.bind {Args Req Resp Res : Type} (env : SlotEnv Args Req Resp Res)
    (s : SlotProxy) (channel : Channel) : SlotProxy :=
  match PluginProxy.create env channel with
  | some p => { plugin_ := some p }
  | none => s

/-- slotproxy.h lines 72-79, `SlotProxy::operator()`: if `plugin_` holds
a value the call is forwarded to it, otherwise the Default callable is
invoked with the same arguments.  `remote` is the per-call transport
reply used by the plugin path; the default path never consults it. -/
def SlotProxy.callOp {Args Req Resp Res : Type} (env : SlotEnv Args Req Resp Res)
    (s : SlotProxy) (remote : Req → Except RpcError Resp) (args : Args) : Res :=
  match s.plugin_ with
  | some p => PluginProxy.call env p remote args
  | none => env.defaultB args

/-- The states a Slot Front-End can be in over its lifetime: it is
default-constructed (slotproxy.h line 50) and then any number of bind
attempts replace or keep the binding. -/
inductive SlotProxy.Reachable {Args Req Resp Res : Type}
    (env : SlotEnv Args Req Resp Res) : SlotProxy → Prop where
  | start : SlotProxy.Reachable env SlotProxy.mkDefault
  | bindStep (s : SlotProxy) (channel : Channel) :
      SlotProxy.Reachable env s → SlotProxy.Reachable env (SlotProxy.bind env s channel)

/-- The public members of the SlotProxy class template, read off the
class body at slotproxy.h lines 37-80: the static slot id, the default
constructor, the channel constructor, and the call operator.  The class
declares no other member. -/
def slotProxyMemberNames : List String :=
  ["slot_id", "SlotProxy", "SlotProxy(channel)", "operator()"]

/-- A concrete slot instantiation used to witness the theorems:
numeric argument and result, wire types equal to the native types,
converters the identity, validator accepting even channel ids,
default behavior adding one. -/
def demoEnv : SlotEnv Nat Nat Nat Nat :=
  { validate := fun c => decide (c.id % 2 = 0)
    toWire := fun a => a
    fromWire := fun r => r
    defaultB := fun a => a + 1 }

/-- A transport reply that always succeeds, answering the request
doubled. -/
def demoRemoteOk : Nat → Except RpcError Nat := fun req => Except.ok (req * 2)

/-- A transport reply that always fails with a timeout. -/
def demoRemoteFail : Nat → Except RpcError Nat := fun _ => Except.error RpcError.timeout

/-- Modelled from the spec: converters.h and the concrete per-slot
converters are not under src/.  Spec section 3 makes wire messages
"versioned, serializable message shapes"; this is the wire shape for a
scalar geometry value (one engine coordinate). -/
structure WireCoord where
  version : Nat
  value : Int
deriving DecidableEq, Repr

/-- Modelled from the spec: the version tag stamped on outgoing wire
messages (spec sections 3 and 6, versioned message shapes). -/
def wireFormatVersion : Nat := 1

/-- Modelled from the spec: request converter for a scalar geometry
value (spec section 4.4, `toWire(native) -> wireMessage`, total and
deterministic). -/
def coordToWire (v : Int) : WireCoord :=
  { version := wireFormatVersion, value := v }

/-- Modelled from the spec: response converter for a scalar geometry
value (spec section 4.4, `fromWire(wireMessage) -> native`). -/
def coordFromWire (m : WireCoord) : Int :=
  m.value

/-- Modelled from the spec: wire shape of one point of a composite
geometry result. -/
structure WirePoint where
  x : Int
  y : Int
deriving DecidableEq, Repr

/-- Modelled from the spec: versioned wire shape of a composite
(polygon-like) result, a sequence of points. -/
structure WirePolygon where
  version : Nat
  points : List WirePoint
deriving DecidableEq, Repr

/-- Modelled from the spec: request converter for a composite native
value, a list of coordinate pairs. -/
def polygonToWire (v : List (Int × Int)) : WirePolygon :=
  { version := wireFormatVersion
    points := v.map (fun q => { x := q.1, y := q.2 }) }

/-- Modelled from the spec: response converter for a composite value. -/
def polygonFromWire (m : WirePolygon) : List (Int × Int) :=
  m.points.map (fun p => (p.x, p.y))

end CuraPlugins

namespace CuraProgress

/-- Progress.h lines 44-53: the stages of the whole slicing process. -/
inductive Stage where
  | START
  | SLICING
  | PARTS
  | INSET_SKIN
  | SUPPORT
  | EXPORT
  | FINISH
deriving DecidableEq, Repr

/-- `static_cast<size_t>(stage)`: the underlying index of a stage. -/
def Stage.toIdx : Stage → Nat
  | Stage.START => 0
  | Stage.SLICING => 1
  | Stage.PARTS => 2
  | Stage.INSET_SKIN => 3
  | Stage.SUPPORT => 4
  | Stage.EXPORT => 5
  | Stage.FINISH => 6

/-- Progress.h lines 57-65: the per-stage reference times. -/
def times : List ℚ :=
  [0, 5.269, 1.533, 71.811, 51.009, 154.62, 0.1]

/-- Progress.h line 68: the per-stage names. -/
def names : List String :=
  ["start", "slice", "layerparts", "inset+skin", "support", "export", "process"]

/-- The mutable static state of the Progress class (Progress.h lines
70-74): time passed before each stage, the total-time estimate, and the
first layer whose time reporting was skipped. -/
structure ProgressState where
  accumulated_times : List ℚ
  total_timing : ℚ
  first_skipped_layer : Option Int
deriving DecidableEq, Repr

/-- Progress.cpp lines 19-21: the static initializers.  The C++
aggregate initializer `{ -1 }` sets the first array slot to -1 and
value-initializes the rest to 0. -/
def progInit : ProgressState :=
  { accumulated_times := [-1, 0, 0, 0, 0, 0, 0]
    total_timing := -1
    first_skipped_layer := none }

/-- The stopwatch handed to messageProgressStage (utils/gettime.h is
not under src/; modelled from its use in Progress.cpp: `restart()`
returns the time elapsed since the previous restart and restarts). -/
structure TimeKeeper where
  elapsed : ℚ
deriving DecidableEq, Repr

/-- `TimeKeeper::restart()`: yields the elapsed time and resets it. -/
def TimeKeeper.restart (tk : TimeKeeper) : ℚ × TimeKeeper :=
  (tk.elapsed, { elapsed := 0 })

/-- One entry of `TimeKeeper::RegisteredTimes` (gettime.h, not under
src/; shape read from its use at Progress.cpp lines 104-118): a stage
label and its duration. -/
structure RegisteredTime where
  stage : String
  duration : ℚ
deriving DecidableEq, Repr

/-- Observable output of the progress functions: terminal log lines
(spdlog::info) kept structurally, and progress messages sent through
the communication channel. -/
inductive LogEvent where
  | stageAccomplished (name : String) (duration : ℚ)
  | stageStarting (name : String)
  | sendProgress (percentage : ℚ)
  | skippedLayers (firstLayer lastLayer : Int)
  | layerExport (layer : Int) (total_time : ℚ)
  | stageTime (connector : String) (stage : String) (pad : Nat) (duration : ℚ)
deriving DecidableEq, Repr

namespace Progress

/-- Progress.cpp lines 24-29, `Progress::calcOverallProgress`. -/
def calcOverallProgress (s : ProgressState) (stage : Stage) (stage_progress : ℚ) : ℚ :=
  (s.accumulated_times.getD stage.toIdx 0 + stage_progress * times.getD stage.toIdx 0)
    / s.total_timing

/-- Progress.cpp lines 54-58, `Progress::messageProgress`: compute the
overall percentage and send it through the communication channel. -/
def messageProgress (s : ProgressState) (stage : Stage)
    (progress_in_stage : Int) (progress_in_stage_max : Int) : List LogEvent :=
  [LogEvent.sendProgress
    (calcOverallProgress s stage ((progress_in_stage : ℚ) / (progress_in_stage_max : ℚ)))]

/-- Progress.cpp lines 61-79, `Progress::messageProgressStage`.  The
whole body is guarded by `time_keeper != nullptr`; inside, a stage
past START logs the previous stage's elapsed time (restarting the
stopwatch), START only restarts, and any stage before FINISH logs the
"Starting" line.  Returns the (unchanged) Progress state, the
stopwatch, and the emitted log lines. -/
def messageProgressStage (stage : Stage) (time_keeper : Option TimeKeeper)
    (s : ProgressState) : ProgressState × Option TimeKeeper × List LogEvent :=
  match time_keeper with
  | none => (s, none, [])
  | some tk =>
    let r := tk.restart
    let log1 : List LogEvent :=
      if 0 < stage.toIdx then
        [LogEvent.stageAccomplished (names.getD (stage.toIdx - 1) "") r.1]
      else []
    let log2 : List LogEvent :=
      if stage.toIdx < Stage.FINISH.toIdx then
        [LogEvent.stageStarting (names.getD stage.toIdx "")]
      else []
    (s, some r.2, log1 ++ log2)

/-- Progress.cpp lines 104-113: `std::max_element` over the registered
stage labels by length; `none` when the sequence is empty, otherwise
the padding, the longest label length. -/
def maxStageSize (stages : List RegisteredTime) : Option Nat :=
  match stages with
  | [] => none
  | _ => some (stages.foldl (fun acc t => Nat.max acc t.stage.length) 0)

/-- Progress.cpp lines 82-121, `Progress::messageProgressLayer`.
A layer under the skip threshold only records the first skipped layer
(when none is recorded yet).  A layer at or above the threshold reports
the skipped range if any and resets it, sends the export progress, and
logs the layer's stage timings. -/
def messageProgressLayer (s : ProgressState) (layer_nr : Int) (total_layers : Nat)
    (total_time : ℚ) (stages : List RegisteredTime) (skip_threshold : ℚ) :
    ProgressState × List LogEvent :=
  if total_time < skip_threshold then
    if s.first_skipped_layer.isNone then
      ({ s with first_skipped_layer := some layer_nr }, [])
    else
      (s, [])
  else
    let skipLog : List LogEvent :=
      match s.first_skipped_layer with
      | some firstLayer => [LogEvent.skippedLayers firstLayer layer_nr]
      | none => []
    let s1 := { s with first_skipped_layer := none }
    let progLog := messageProgress s1 Stage.EXPORT (max layer_nr 0 + 1) (Int.ofNat total_layers)
    let exportLog := [LogEvent.layerExport layer_nr total_time]
    let stageLogs : List LogEvent :=
      match maxStageSize stages with
      | none => []
      | some padding =>
        stages.enum.map (fun q =>
          LogEvent.stageTime (if q.1 < stages.length - 1 then "├" else "└")
            q.2.stage (padding - q.2.stage.length) q.2.duration)
    (s1, skipLog ++ progLog ++ exportLog ++ stageLogs)

end Progress

/-- One recorded invocation of `Progress::messageProgressLayer`. -/
structure LayerCall where
  layer_nr : Int
  total_layers : Nat
  total_time : ℚ
  stages : List RegisteredTime
  skip_threshold : ℚ
deriving DecidableEq, Repr

/-- Whether a layer call falls under its skip threshold
(Progress.cpp line 84). -/
def LayerCall.skipped (c : LayerCall) : Bool :=
  decide (c.total_time < c.skip_threshold)

/-- The state transformation of one messageProgressLayer call. -/
def stepLayer (s : ProgressState) (c : LayerCall) : ProgressState :=
  (Progress.messageProgressLayer s c.layer_nr c.total_layers c.total_time
    c.stages c.skip_threshold).1

/-- The state after a sequence of messageProgressLayer calls. -/
def runLayers (s : ProgressState) (cs : List LayerCall) : ProgressState :=
  cs.foldl stepLayer s

/-- The current run of consecutive skipped layers after a call
sequence: the maximal all-skipped suffix of the sequence. -/
def currentSkipRun (cs : List LayerCall) : List LayerCall :=
  cs.foldl (fun acc c => if c.skipped then acc ++ [c] else []) []

/-- The effect of one messageProgressLayer call on
`first_skipped_layer` alone, as a pure fold step. -/
def fslStep (o : Option Int) (c : LayerCall) : Option Int :=
  if c.skipped then (if o.isNone then some c.layer_nr else o) else none

/-- A demonstration call sequence: layers 3 (skipped), 4 (reported),
5 (skipped). -/
def demoCalls : List LayerCall :=
  [ { layer_nr := 3, total_layers := 10, total_time := 0.05, stages := [], skip_threshold := 0.1 }
  , { layer_nr := 4, total_layers := 10, total_time := 0.5, stages := [], skip_threshold := 0.1 }
  , { layer_nr := 5, total_layers := 10, total_time := 0.01, stages := [], skip_threshold := 0.1 } ]

end CuraProgress

namespace CuraPlugins

/-- In every reachable state, any bound Remote Call Client carries a
positive cached Validation Outcome: rejected constructions never
produce a client. -/
theorem SlotProxy.reachable_valid {Args Req Resp Res : Type}
    (env : SlotEnv Args Req Resp Res) (s : SlotProxy)
    (h : SlotProxy.Reachable env s) :
    ∀ p : PluginProxy, s.plugin_ = some p → p.valid = true := by
  induction h with
  | start =>
    intro p hp
    simp [SlotProxy.mkDefault] at hp
  | bindStep s channel _hr ih =>
    intro p hp
    by_cases hv : env.validate channel
    · simp [SlotProxy.bind, PluginProxy.create, hv] at hp
      simp [← hp, hv]
    · simp [SlotProxy.bind, PluginProxy.create, hv] at hp
      exact ih p hp

/-- C1: for every invocation of the Slot Front-End in a reachable
state, if a Channel Binding exists its cached Validation Outcome is
positive and the call is forwarded to the Remote Call Client; otherwise
the Default Behavior is invoked with the same arguments. -/
theorem c1_dispatch {Args Req Resp Res : Type} (env : SlotEnv Args Req Resp Res)
    (s : SlotProxy) (h : SlotProxy.Reachable env s)
    (remote : Req → Except RpcError Resp) (args : Args) :
    (∀ p : PluginProxy, s.plugin_ = some p →
      p.valid = true ∧ SlotProxy.callOp env s remote args = PluginProxy.call env p remote args)
    ∧ (s.plugin_ = none → SlotProxy.callOp env s remote args = env.defaultB args) := by
  constructor
  · intro p hp
    refine ⟨SlotProxy.reachable_valid env s h p hp, ?_⟩
    simp [SlotProxy.callOp, hp]
  · intro hn
    simp [SlotProxy.callOp, hn]

/-- Witness for C1 at a concrete reachable bound state. -/
theorem c1_dispatch_witness :
    SlotProxy.callOp demoEnv (SlotProxy.bind demoEnv SlotProxy.mkDefault { id := 4 })
      demoRemoteOk 10 = 20 := by
  have hreach : SlotProxy.Reachable demoEnv
      (SlotProxy.bind demoEnv SlotProxy.mkDefault { id := 4 }) :=
    SlotProxy.Reachable.bindStep SlotProxy.mkDefault { id := 4 } SlotProxy.Reachable.start
  have h := c1_dispatch demoEnv
    (SlotProxy.bind demoEnv SlotProxy.mkDefault { id := 4 }) hreach demoRemoteOk 10
  have hb : (SlotProxy.bind demoEnv SlotProxy.mkDefault { id := 4 }).plugin_ =
      some { channel := { id := 4 }, valid := true } := by decide
  have h2 := (h.1 { channel := { id := 4 }, valid := true } hb).2
  rw [h2]
  decide

/-- C2: invoking a default-constructed Slot Front-End (no bound
channel) returns exactly the Default Behavior's result for the same
arguments, on every call, whatever the transport would have answered. -/
theorem c2_noplugin_default {Args Req Resp Res : Type} (env : SlotEnv Args Req Resp Res)
    (remote remoteOther : Req → Except RpcError Resp) (args : Args) :
    SlotProxy.callOp env SlotProxy.mkDefault remote args = env.defaultB args
    ∧ SlotProxy.callOp env SlotProxy.mkDefault remote args
      = SlotProxy.callOp env SlotProxy.mkDefault remoteOther args := by
  exact ⟨rfl, rfl⟩

/-- C3: the Value Converter pairs round-trip: decoding an encoded
native value gives the value back, exactly for scalar geometry values
and structurally for composite results. -/
theorem c3_converter_roundtrip :
    (∀ v : Int, coordFromWire (coordToWire v) = v)
    ∧ (∀ v : List (Int × Int), polygonFromWire (polygonToWire v) = v) := by
  refine ⟨fun v => rfl, fun v => ?_⟩
  induction v with
  | nil => rfl
  | cons a t ih => simpa [polygonFromWire, polygonToWire] using ih

/-- C4: a bind attempt on a channel the Capability Validator rejects
creates no Remote Call Client, leaves the proxy state identical, and
every subsequent invocation behaves exactly as before the attempt. -/
theorem c4_failed_bind_noop {Args Req Resp Res : Type} (env : SlotEnv Args Req Resp Res)
    (s : SlotProxy) (channel : Channel) (h : env.validate channel = false) :
    PluginProxy.create env channel = none
    ∧ SlotProxy.bind env s channel = s
    ∧ ∀ (remote : Req → Except RpcError Resp) (args : Args),
        SlotProxy.callOp env (SlotProxy.bind env s channel) remote args
          = SlotProxy.callOp env s remote args := by
  have hc : PluginProxy.create env channel = none := by
    simp [PluginProxy.create, h]
  have hb : SlotProxy.bind env s channel = s := by
    simp [SlotProxy.bind, hc]
  exact ⟨hc, hb, fun remote args => by rw [hb]⟩

/-- Witness for C4: binding an odd-id channel (rejected by the demo
validator) onto a bound proxy changes nothing. -/
theorem c4_failed_bind_noop_witness :
    demoEnv.validate { id := 3 } = false
    ∧ SlotProxy.bind demoEnv (SlotProxy.bind demoEnv SlotProxy.mkDefault { id := 4 }) { id := 3 }
      = SlotProxy.bind demoEnv SlotProxy.mkDefault { id := 4 } := by
  refine ⟨by decide, ?_⟩
  exact (c4_failed_bind_noop demoEnv
    (SlotProxy.bind demoEnv SlotProxy.mkDefault { id := 4 }) { id := 3 } (by decide)).2.1

/-- C5: through a bound Slot Front-End, a call whose transport reply is
an error returns the Default Behavior's result for the same arguments,
while the binding stays usable: any call through the same state whose
transport reply succeeds returns the converted response. -/
theorem c5_transport_failure_degrades {Args Req Resp Res : Type}
    (env : SlotEnv Args Req Resp Res) (s : SlotProxy) (p : PluginProxy)
    (hp : s.plugin_ = some p) (remoteFail : Req → Except RpcError Resp)
    (e : RpcError) (args : Args)
    (hfail : remoteFail (env.toWire args) = Except.error e) :
    SlotProxy.callOp env s remoteFail args = env.defaultB args
    ∧ ∀ (remoteOk : Req → Except RpcError Resp) (args2 : Args) (resp : Resp),
        remoteOk (env.toWire args2) = Except.ok resp →
        SlotProxy.callOp env s remoteOk args2 = env.fromWire resp := by
  constructor
  · simp [SlotProxy.callOp, hp, PluginProxy.call, hfail]
  · intro remoteOk args2 resp hok
    simp [SlotProxy.callOp, hp, PluginProxy.call, hok]

/-- Witness for C5: on the demo slot bound to channel 4, a timed-out
call yields the default result 11 for argument 10, and a following
successful call yields the remote result 20. -/
theorem c5_transport_failure_degrades_witness :
    SlotProxy.callOp demoEnv (SlotProxy.bind demoEnv SlotProxy.mkDefault { id := 4 })
      demoRemoteFail 10 = 11
    ∧ SlotProxy.callOp demoEnv (SlotProxy.bind demoEnv SlotProxy.mkDefault { id := 4 })
      demoRemoteOk 10 = 20 := by
  have h := c5_transport_failure_degrades demoEnv
    (SlotProxy.bind demoEnv SlotProxy.mkDefault { id := 4 })
    { channel := { id := 4 }, valid := true } (by decide) demoRemoteFail
    RpcError.timeout 10 (by rfl)
  exact ⟨h.1, h.2 demoRemoteOk 10 20 (by rfl)⟩

/-- C6: the Capability Validator is a bind-time-only concern.  First,
no invocation of the call operator depends on the validator at all:
replacing the validator by any other leaves every call's result
unchanged (the cached outcome inside the binding is what is used).
Second, a bind attempt consults the validator only at the channel being
bound: two validators agreeing there produce identical bind results.
Third, the bind attempt genuinely does consult it there: some validator
change flips a concrete bind's outcome. -/
theorem c6_validator_bind_time_only :
    (∀ {Args Req Resp Res : Type} (env : SlotEnv Args Req Resp Res)
        (vOther : Channel → Bool) (s : SlotProxy)
        (remote : Req → Except RpcError Resp) (args : Args),
      SlotProxy.callOp { env with validate := vOther } s remote args
        = SlotProxy.callOp env s remote args)
    ∧ (∀ {Args Req Resp Res : Type} (env : SlotEnv Args Req Resp Res)
        (vOther : Channel → Bool) (s : SlotProxy) (channel : Channel),
      env.validate channel = vOther channel →
      SlotProxy.bind { env with validate := vOther } s channel
        = SlotProxy.bind env s channel)
    ∧ (∃ vOther : Channel → Bool,
      SlotProxy.bind { demoEnv with validate := vOther } SlotProxy.mkDefault { id := 4 }
        ≠ SlotProxy.bind demoEnv SlotProxy.mkDefault { id := 4 }) := by
  refine ⟨?_, ?_, ?_⟩
  · intro Args Req Resp Res env vOther s remote args
    cases hs : s.plugin_ <;> simp [SlotProxy.callOp, hs, PluginProxy.call]
  · intro Args Req Resp Res env vOther s channel hag
    simp [SlotProxy.bind, PluginProxy.create, hag]
  · refine ⟨fun _ => false, ?_⟩
    decide

/-- Witness for C6 (second conjunct has a hypothesis): with a validator
agreeing at channel 4, the bind results coincide concretely. -/
theorem c6_validator_bind_time_only_witness :
    SlotProxy.bind { demoEnv with validate := fun _ => true } SlotProxy.mkDefault { id := 4 }
      = SlotProxy.bind demoEnv SlotProxy.mkDefault { id := 4 } := by
  exact c6_validator_bind_time_only.2.1 demoEnv (fun _ => true)
    SlotProxy.mkDefault { id := 4 } (by decide)

/-- Counterexample for C7: the SlotProxy class body (slotproxy.h lines
37-80) declares no unbind member, so the claimed unbind() operation
does not exist. -/
theorem c7_no_unbind_counterexample : "unbind" ∉ slotProxyMemberNames := by
  decide

/-- C7 amended: SlotProxy offers no unbind() member; a binding is
removed only by replacing the whole proxy value with a
default-constructed one, and every invocation of the replacement
executes the Default Behavior. -/
theorem c7_unbind_by_replacement {Args Req Resp Res : Type}
    (env : SlotEnv Args Req Resp Res) :
    "unbind" ∉ slotProxyMemberNames
    ∧ ∀ (remote : Req → Except RpcError Resp) (args : Args),
        SlotProxy.callOp env { plugin_ := none } remote args = env.defaultB args := by
  exact ⟨by decide, fun remote args => rfl⟩

/-- C8: the bound/unbound state of a Slot Front-End is a tagged option:
every state holds either no client or exactly one, never both; and a
successful bind replaces whatever was there before, its result being
independent of the prior state. -/
theorem c8_single_binding :
    (∀ s : SlotProxy,
      (s.plugin_ = none ∨ ∃ p : PluginProxy, s.plugin_ = some p)
      ∧ ¬(s.plugin_ = none ∧ ∃ p : PluginProxy, s.plugin_ = some p))
    ∧ (∀ {Args Req Resp Res : Type} (env : SlotEnv Args Req Resp Res)
        (s sOther : SlotProxy) (channel : Channel),
      env.validate channel = true →
      SlotProxy.bind env s channel = SlotProxy.bind env sOther channel) := by
  constructor
  · intro s
    cases hs : s.plugin_ with
    | none => exact ⟨Or.inl rfl, fun hk => by
        obtain ⟨-, p, hp⟩ := hk
        simp [hs] at hp⟩
    | some p => exact ⟨Or.inr ⟨p, rfl⟩, fun hk => by
        obtain ⟨hn, -⟩ := hk
        simp [hs] at hn⟩
  · intro Args Req Resp Res env s sOther channel hv
    simp [SlotProxy.bind, PluginProxy.create, hv]

/-- Witness for C8: rebinding channel 2 over two different prior states
(unbound, and bound to channel 4) gives the same resulting state. -/
theorem c8_single_binding_witness :
    SlotProxy.bind demoEnv SlotProxy.mkDefault { id := 2 }
      = SlotProxy.bind demoEnv (SlotProxy.bind demoEnv SlotProxy.mkDefault { id := 4 }) { id := 2 } := by
  exact c8_single_binding.2 demoEnv SlotProxy.mkDefault
    (SlotProxy.bind demoEnv SlotProxy.mkDefault { id := 4 }) { id := 2 } (by decide)

end CuraPlugins

namespace CuraProgress

/-- The first component of one messageProgressLayer call changes only
the first-skipped-layer field, exactly as the pure fold step does. -/
theorem stepLayer_fsl (s : ProgressState) (c : LayerCall) :
    (stepLayer s c).first_skipped_layer = fslStep s.first_skipped_layer c := by
  by_cases h : c.total_time < c.skip_threshold
  · cases ho : s.first_skipped_layer <;>
      simp [stepLayer, Progress.messageProgressLayer, fslStep, LayerCall.skipped, h, ho]
  · cases ho : s.first_skipped_layer <;>
      simp [stepLayer, Progress.messageProgressLayer, fslStep, LayerCall.skipped, h, ho]

/-- Running a call sequence folds the pure step over the
first-skipped-layer field. -/
theorem runLayers_fsl (cs : List CuraProgress.LayerCall) :
    ∀ s : ProgressState,
      (runLayers s cs).first_skipped_layer = cs.foldl fslStep s.first_skipped_layer := by
  induction cs with
  | nil => intro s; rfl
  | cons c cs ih =>
    intro s
    have h1 : runLayers s (c :: cs) = runLayers (stepLayer s c) cs := rfl
    rw [h1, ih (stepLayer s c), List.foldl_cons, stepLayer_fsl]

/-- Appending one call to a sequence extends the current skipped run
when the call is skipped and clears it otherwise. -/
theorem currentSkipRun_append (cs : List LayerCall) (c : LayerCall) :
    currentSkipRun (cs ++ [c])
      = if c.skipped then currentSkipRun cs ++ [c] else [] := by
  unfold currentSkipRun
  rw [List.foldl_append]
  rfl

/-- Starting from an empty first-skipped-layer, the pure fold computes
the head of the current skipped run. -/
theorem foldl_fslStep_currentSkipRun (cs : List LayerCall) :
    cs.foldl fslStep none = (currentSkipRun cs).head?.map LayerCall.layer_nr := by
  induction cs using List.reverseRecOn with
  | nil => rfl
  | append_singleton cs c ih =>
    rw [List.foldl_append, List.foldl_cons, List.foldl_nil, ih, currentSkipRun_append]
    by_cases hc : c.skipped
    · cases hr : currentSkipRun cs with
      | nil => simp [fslStep, hc]
      | cons d ds => simp [fslStep, hc]
    · simp [fslStep, hc]

/-- C9: messageProgressStage with a null TimeKeeper is a complete
no-op for every stage: no log output, and accumulated_times,
total_timing and first_skipped_layer all unchanged. -/
theorem c9_null_timekeeper_noop (stage : Stage) (s : ProgressState) :
    Progress.messageProgressStage stage none s = (s, none, [])
    ∧ (Progress.messageProgressStage stage none s).1.accumulated_times = s.accumulated_times
    ∧ (Progress.messageProgressStage stage none s).1.total_timing = s.total_timing
    ∧ (Progress.messageProgressStage stage none s).1.first_skipped_layer = s.first_skipped_layer
    ∧ (Progress.messageProgressStage stage none s).2.2 = [] := by
  exact ⟨rfl, rfl, rfl, rfl, rfl⟩

/-- C10: over any call sequence started from an empty
first_skipped_layer, the field always holds the earliest layer of the
current run of consecutive skipped layers; per step it is set only when
empty, never overwritten by later skipped layers, and reset exactly on
a layer at or above the threshold. -/
theorem c10_first_skipped_layer_invariant (s0 : ProgressState)
    (h : s0.first_skipped_layer = none) (cs : List LayerCall) :
    (runLayers s0 cs).first_skipped_layer
      = (currentSkipRun cs).head?.map LayerCall.layer_nr
    ∧ (∀ (s : ProgressState) (c : LayerCall),
        (stepLayer s c).first_skipped_layer = none ↔ c.skipped = false)
    ∧ (∀ (s : ProgressState) (c : LayerCall) (i : Int), c.skipped = true →
        s.first_skipped_layer = some i → (stepLayer s c).first_skipped_layer = some i)
    ∧ (∀ (s : ProgressState) (c : LayerCall), c.skipped = true →
        s.first_skipped_layer = none →
        (stepLayer s c).first_skipped_layer = some c.layer_nr) := by
  refine ⟨?_, ?_, ?_, ?_⟩
  · rw [runLayers_fsl cs s0, h, foldl_fslStep_currentSkipRun]
  · intro s c
    rw [stepLayer_fsl]
    cases hc : c.skipped <;> cases ho : s.first_skipped_layer <;> simp [fslStep, hc, ho]
  · intro s c i hc ho
    rw [stepLayer_fsl, ho]
    simp [fslStep, hc]
  · intro s c hc ho
    rw [stepLayer_fsl, ho]
    simp [fslStep, hc]

/-- Witness for C10 on the demonstration sequence: layer 3 skipped,
layer 4 reported (clearing the run), layer 5 skipped, so the field ends
at layer 5, the head of the current skipped run. -/
theorem c10_first_skipped_layer_invariant_witness :
    progInit.first_skipped_layer = none
    ∧ (runLayers progInit demoCalls).first_skipped_layer = some 5 := by
  refine ⟨rfl, ?_⟩
  have h := (c10_first_skipped_layer_invariant progInit rfl demoCalls).1
  rw [h]
  norm_num [currentSkipRun, demoCalls, LayerCall.skipped]

end CuraProgress
